import Mathlib

/-!
Verification of the loan-analysis report renderer (src/report_generator.py).

The renderer is shallow-embedded as pure functions over an explicit PDF
state.  Every call to the page-layout library that emits text
(FPDF.cell / FPDF.multi_cell) is recorded as a `Cell` carrying the text
and the font / color / border / fill state current at emission time;
geometry (widths, heights, alignment, cursor movement via ln, page
breaks) is owned by the external layout library and is not modelled.
The wall clock (datetime.now, line 76 of the source) is an explicit
`now : String` parameter.  Python dict access `d.get(k, v)` becomes
`Option.getD`; the single direct index access in the source,
doc [ the string document_type ] at line 84, raises KeyError when the
key is absent, and is modelled by returning `none` for the whole render.
Numeric record values are modelled at `Int` (the renderer only formats
them, it does no arithmetic besides the obligations total); Python
format specs {v:,.0f} / {v:,.2f} / {v:.2f} on integer-valued inputs are
implemented exactly by fmtComma0 / fmtComma2 / fmtPlain2 below.
-/

/-- One decimal digit as a character. -/
def digitChar (d : Nat) : Char := Char.ofNat (48 + d)

/-- Fuel-driven accumulation of the decimal digits of a number,
most significant first (structural recursion so the kernel can
evaluate it). -/
def natDigitsAux : Nat → Nat → List Char → List Char
  | 0, _, acc => acc
  | fuel + 1, n, acc =>
      if n = 0 then acc else natDigitsAux fuel (n / 10) (digitChar (n % 10) :: acc)

/-- Decimal digits of a natural number, as Python str() renders it. -/
def natDigits (n : Nat) : List Char :=
  if n = 0 then ['0'] else natDigitsAux (n + 1) n []

/-- Python str() of a natural number. -/
def natStr (n : Nat) : String := String.mk (natDigits n)

/-- Python str() of an integer. -/
def intStr (i : Int) : String :=
  if i < 0 then "-" ++ natStr i.natAbs else natStr i.natAbs

/-- Insert a comma after every group of three characters of a reversed
digit list (thousands grouping, working from the least significant
digit). -/
def chunk3 : List Char → List Char
  | a :: b :: c :: d :: rest => a :: b :: c :: ',' :: chunk3 (d :: rest)
  | l => l

/-- Comma-grouped decimal rendering of a natural number. -/
def commaGroup (n : Nat) : String :=
  String.mk (chunk3 (natDigits n).reverse).reverse

/-- Python format spec {i:,.0f} on an integer value. -/
def fmtComma0 (i : Int) : String :=
  (if i < 0 then "-" else "") ++ commaGroup i.natAbs

/-- Python format spec {i:,.2f} on an integer value. -/
def fmtComma2 (i : Int) : String := fmtComma0 i ++ ".00"

/-- Python format spec {i:.2f} (no thousands grouping) on an integer
value. -/
def fmtPlain2 (i : Int) : String := intStr i ++ ".00"

/-- Python str.title(): the first letter of every maximal alphabetic
run is uppercased, the rest lowercased. -/
def titleGo : Bool → List Char → List Char
  | _, [] => []
  | prevAlpha, c :: cs =>
      if c.isAlpha then
        (if prevAlpha then c.toLower else c.toUpper) :: titleGo true cs
      else
        c :: titleGo false cs

/-- Python str.title() applied to a string (ASCII inputs). -/
def pyTitle (s : String) : String := String.mk (titleGo false s.data)

/-- Python truthiness of an optional string value, as used by
doc.get of the warning key: absent or empty is falsy. -/
def optTruthy : Option String → Bool
  | none => false
  | some s => !(s == "")

/-- Display of an optional integer record value whose absence renders
the fixed placeholder, as in calculations.get(key) with default
string. -/
def optIntStr (o : Option Int) : String :=
  match o with
  | some n => intStr n
  | none => "N/A"

/-- An RGB color as passed to set_text_color / set_fill_color. -/
structure Color where
  r : Nat
  g : Nat
  b : Nat
deriving Repr, DecidableEq

/-- One emitted piece of text: the text together with the border flag,
font style and size, text color and fill flag current when the
library's cell / multi_cell call was made. -/
structure Cell where
  text : String
  border : Bool
  style : String
  size : Nat
  color : Color
  fill : Bool
deriving Repr, DecidableEq

/-- The document state driven by the renderer: current font style and
size, current text color, current fill color, and the cells emitted so
far in order. -/
structure PDF where
  curStyle : String
  curSize : Nat
  curColor : Color
  curFill : Color
  cells : List Cell
deriving Repr, DecidableEq

def PDF.set_font (p : PDF) (style : String) (size : Nat) : PDF :=
  { p with curStyle := style, curSize := size }

def PDF.set_text_color (p : PDF) (c : Color) : PDF :=
  { p with curColor := c }

def PDF.set_fill_color (p : PDF) (c : Color) : PDF :=
  { p with curFill := c }

/-- FPDF.cell: emit one cell in the current font / color state. -/
def PDF.cell (p : PDF) (txt : String) (border : Bool) (fill : Bool) : PDF :=
  { p with cells := p.cells ++ [⟨txt, border, p.curStyle, p.curSize, p.curColor, fill⟩] }

/-- FPDF.multi_cell: emitted borderless and unfilled in the source. -/
def PDF.multi_cell (p : PDF) (txt : String) : PDF := p.cell txt false false

/-- LoanReportPDF.header (lines 15-19): bold 16pt centered title. -/
def PDF.header (p : PDF) : PDF :=
  (p.set_font "B" 16).cell "LOAN APPLICATION ANALYSIS REPORT" false false

/-- FPDF.add_page invokes the header callback on the fresh page. -/
def PDF.add_page (p : PDF) : PDF := p.header

/-- Fresh document state: no font selected yet, black text. -/
def PDF.init : PDF := ⟨"", 0, ⟨0, 0, 0⟩, ⟨0, 0, 0⟩, []⟩

/-- LoanReportPDF.section_title (lines 27-34): steel-blue filled banner
in white bold 14pt, then the text color is restored to black. -/
def PDF.section_title (p : PDF) (title : String) : PDF :=
  ((((p.set_font "B" 14).set_fill_color ⟨70, 130, 180⟩).set_text_color
      ⟨255, 255, 255⟩).cell title false true).set_text_color ⟨0, 0, 0⟩

/-- LoanReportPDF.add_field (lines 36-41): bold label cell then normal
value cell. -/
def PDF.add_field (p : PDF) (label value : String) : PDF :=
  (((p.set_font "B" 10).cell (label ++ ":") false false).set_font "" 10).multi_cell value

/-- The header row loop of LoanReportPDF.add_table and of the salary
table: bordered, filled header cells. -/
def headerFold (headers : List String) (p : PDF) : PDF :=
  headers.foldl (fun q h => q.cell h true true) p

/-- The data row loops of LoanReportPDF.add_table and of the salary
table: bordered cells row by row. -/
def dataFold (data : List (List String)) (p : PDF) : PDF :=
  data.foldl (fun q row => row.foldl (fun r c => r.cell c true false) q) p

/-- LoanReportPDF.add_table (lines 43-59). -/
def PDF.add_table (p : PDF) (headers : List String) (data : List (List String)) : PDF :=
  dataFold data
    ((headerFold headers ((p.set_font "B" 9).set_fill_color ⟨200, 220, 255⟩)).set_font "" 8)

/-- applicant_data: all fields read through .get with defaults
(placeholder for text fields, 0 for the loan amount, the float literal
8.5 -- which formats as the string 8.5 -- for the interest rate). -/
structure ApplicantData where
  applicant_name : Option String
  pan_masked : Option String
  aadhar_masked : Option String
  date_of_birth : Option String
  current_age : Option Int
  mobile_no : Option String
  email_id : Option String
  current_address : Option String
  employer : Option String
  designation : Option String
  department : Option String
  job_since : Option String
  total_experience : Option String
  office_address : Option String
  loan_amount : Option Int
  interest_rate : Option String
deriving Repr, DecidableEq

/-- The earnings sub-mapping of a salary slip. -/
structure Earnings where
  basic : Option Int
  hra : Option Int
  medical_allowance : Option Int
  bonus : Option Int
deriving Repr, DecidableEq

/-- The deductions sub-mapping of a salary slip. -/
structure Deductions where
  tds : Option Int
  professional_tax : Option Int
deriving Repr, DecidableEq

/-- One salary-slip record. -/
structure SalarySlip where
  month : Option String
  earnings : Option Earnings
  deductions : Option Deductions
  gross_salary : Option Int
  net_salary : Option Int
deriving Repr, DecidableEq

/-- salary_analysis: .get of the slips key defaults to the empty
list. -/
structure SalaryAnalysis where
  salary_slips : List SalarySlip
deriving Repr, DecidableEq

/-- The nested calculations mapping of the eligibility results. -/
structure EligCalcs where
  approved_tenure_years : Option Int
  current_age : Option Int
  remaining_service_years : Option Int
  max_tenure_allowed : Option Int
  current_foir_percent : Option Int
  foir_with_requested_loan : Option Int
  emi_for_requested_loan : Option Int
  max_emi_allowed : Option Int
  max_loan_by_income : Option Int
  approved_loan_amount : Option Int
  recommended_loan_amount : Option Int
  total_existing_obligations : Option Int
deriving Repr, DecidableEq

/-- The all-absent calculations mapping, the default of
eligibility_results.get of the calculations key. -/
def EligCalcs.empty : EligCalcs :=
  ⟨none, none, none, none, none, none, none, none, none, none, none, none⟩

/-- eligibility_results: issues / warnings read through truthy .get, so
an absent list behaves as the empty list. -/
structure EligibilityResults where
  eligible : Option Bool
  calculations : Option EligCalcs
  issues : List String
  warnings : List String
deriving Repr, DecidableEq

/-- Line 169: calculations = eligibility_results.get(calculations key,
empty mapping). -/
def calcOf (er : EligibilityResults) : EligCalcs := er.calculations.getD EligCalcs.empty

/-- One existing-obligation record (lines 237-242). -/
structure Obligation where
  lender : Option String
  «type» : Option String
  amount : Option Int
  excluded : Option Bool
  has_loan_document : Option Bool
deriving Repr, DecidableEq

/-- One uploaded-document descriptor.  The source reads document_type
by direct indexing (line 84), the period key by a containment test
(line 87), and the warning key by truthy .get (line 90). -/
structure UploadedDoc where
  document_type : Option String
  period : Option String
  period_start : Option String
  period_end : Option String
  warning : Option String
deriving Repr, DecidableEq

/-- pending_docs: uploaded-document descriptors, pending names and the
completion percentage. -/
structure PendingDocs where
  uploaded_documents_details : List UploadedDoc
  pending_documents : List String
  completion_percentage : Option Int
deriving Repr, DecidableEq

/-- pending_forms: pending field names and the completion
percentage. -/
structure PendingForms where
  pending_form_fields : List String
  completion_percentage : Option Int
deriving Repr, DecidableEq

/-- The period line of one uploaded document (lines 87-89) -- the
indent spacer cell(10) is recorded as an empty-text cell. -/
def periodPart (p : PDF) (d : UploadedDoc) : PDF :=
  match d.period with
  | none => p
  | some per =>
      (p.cell "" false false).cell
        ("  Period: " ++ d.period_start.getD "N/A" ++ " to " ++ d.period_end.getD "N/A" ++
          " (" ++ per ++ ")") false false

/-- The warning line of one uploaded document (lines 90-94): red text,
restored to black afterwards. -/
def warnPart (p : PDF) (d : UploadedDoc) : PDF :=
  if optTruthy d.warning then
    (((p.set_text_color ⟨255, 0, 0⟩).cell "" false false).cell
        ("  warning " ++ d.warning.getD "") false false).set_text_color ⟨0, 0, 0⟩
  else p

/-- One iteration of the uploaded-documents loop (lines 82-94).  The
direct index access at line 84 fails (KeyError) when document_type is
absent; that failure is the none result. -/
def renderDoc (p : PDF) (d : UploadedDoc) : Option PDF :=
  match d.document_type with
  | none => none
  | some ty =>
      some (warnPart (periodPart (((p.set_font "B" 10).cell ("- " ++ ty) false false).set_font "" 9) d) d)

/-- The DOCUMENTS UPLOADED block (lines 79-94). -/
def docsSection (p : PDF) (pd : PendingDocs) : Option PDF :=
  if pd.uploaded_documents_details.isEmpty then
    some (p.section_title "DOCUMENTS UPLOADED")
  else
    pd.uploaded_documents_details.foldlM renderDoc (p.section_title "DOCUMENTS UPLOADED")

/-- Section 1, APPLICANT SUMMARY (lines 98-117). -/
def applicantSection (p : PDF) (a : ApplicantData) : PDF :=
  p.section_title "1. APPLICANT SUMMARY"
  |>.add_field "Applicant Name" (a.applicant_name.getD "N/A")
  |>.add_field "PAN" (a.pan_masked.getD "N/A")
  |>.add_field "Aadhar" (a.aadhar_masked.getD "N/A")
  |>.add_field "Date of Birth" (a.date_of_birth.getD "N/A")
  |>.add_field "Current Age" (optIntStr a.current_age ++ " years")
  |>.add_field "Mobile Number" (a.mobile_no.getD "N/A")
  |>.add_field "Email ID" (a.email_id.getD "N/A")
  |>.add_field "Current Address" (a.current_address.getD "N/A")
  |>.add_field "Employment Type" "Salaried"
  |>.add_field "Employer/Company" (a.employer.getD "N/A")
  |>.add_field "Designation" (a.designation.getD "N/A")
  |>.add_field "Department" (a.department.getD "N/A")
  |>.add_field "Job Since" (a.job_since.getD "N/A")
  |>.add_field "Total Experience" (a.total_experience.getD "N/A")
  |>.add_field "Office Address" (a.office_address.getD "N/A")

/-- The salary table header labels (line 128). -/
def salaryHeaders : List String :=
  ["Month", "Basic", "HRA", "Medical", "Bonus", "Gross", "TDS", "Prof. Tax", "Net"]

/-- One data row of the salary table (lines 141-156). -/
def slipRow (slip : SalarySlip) : List String :=
  [slip.month.getD "N/A",
   fmtComma0 ((slip.earnings.getD ⟨none, none, none, none⟩).basic.getD 0),
   fmtComma0 ((slip.earnings.getD ⟨none, none, none, none⟩).hra.getD 0),
   fmtComma0 ((slip.earnings.getD ⟨none, none, none, none⟩).medical_allowance.getD 0),
   fmtComma0 ((slip.earnings.getD ⟨none, none, none, none⟩).bonus.getD 0),
   fmtComma0 (slip.gross_salary.getD 0),
   fmtComma0 ((slip.deductions.getD ⟨none, none⟩).tds.getD 0),
   fmtComma0 ((slip.deductions.getD ⟨none, none⟩).professional_tax.getD 0),
   fmtComma0 (slip.net_salary.getD 0)]

/-- The data rows actually rendered: slips[:3] (line 141). -/
def salaryRows (sa : SalaryAnalysis) : List (List String) :=
  (sa.salary_slips.take 3).map slipRow

/-- Section 2, COMPLETE SALARY BREAKUP (lines 119-165): the table for
a non-empty slip list, the italic unavailable placeholder otherwise. -/
def salarySection (p : PDF) (sa : SalaryAnalysis) : PDF :=
  if sa.salary_slips.isEmpty then
    (((p.section_title "2. COMPLETE SALARY BREAKUP (Last 3 Months)").set_font "I" 9).cell
      "Salary details unavailable" false false)
  else
    dataFold (salaryRows sa)
      ((headerFold salaryHeaders
          (((p.section_title "2. COMPLETE SALARY BREAKUP (Last 3 Months)").set_font "B" 9).set_fill_color
            ⟨220, 220, 220⟩)).set_font "" 8)

/-- The labeled eligibility figures (lines 167-190). -/
def eligFields (p : PDF) (a : ApplicantData) (er : EligibilityResults) : PDF :=
  p.section_title "3. LOAN ELIGIBILITY SUMMARY"
  |>.add_field "Requested Loan Amount" ("Rs" ++ fmtComma0 (a.loan_amount.getD 0))
  |>.add_field "Tenure (Auto-calculated based on age)"
      (optIntStr (calcOf er).approved_tenure_years ++ " years")
  |>.add_field "Interest Rate" (a.interest_rate.getD "8.5" ++ "% p.a.")
  |>.add_field "Current Age" (optIntStr (calcOf er).current_age ++ " years")
  |>.add_field "Maximum Age Limit" "60 years"
  |>.add_field "Remaining Service Years"
      (optIntStr (calcOf er).remaining_service_years ++ " years")
  |>.add_field "Maximum Tenure Allowed" (optIntStr (calcOf er).max_tenure_allowed ++ " years")
  |>.add_field "Current FOIR (before new loan)"
      (fmtPlain2 ((calcOf er).current_foir_percent.getD 0) ++ "%")
  |>.add_field "FOIR with Requested Loan"
      (fmtPlain2 ((calcOf er).foir_with_requested_loan.getD 0) ++ "%")
  |>.add_field "Maximum FOIR Allowed" "60.00%"
  |>.add_field "EMI for Requested Loan"
      ("Rs" ++ fmtComma2 ((calcOf er).emi_for_requested_loan.getD 0))
  |>.add_field "Maximum EMI Capacity" ("Rs" ++ fmtComma2 ((calcOf er).max_emi_allowed.getD 0))
  |>.add_field "Maximum Loan by Income"
      ("Rs" ++ fmtComma2 ((calcOf er).max_loan_by_income.getD 0))

/-- The recommended-amount line of the not-eligible branch (lines
202-205): only emitted for a strictly positive recommended amount. -/
def recommendedPart (p : PDF) (r : Int) : PDF :=
  if 0 < r then
    (p.set_font "B" 11).cell ("Recommended Amount: Rs" ++ fmtComma0 r) false false
  else p

/-- The verdict block (lines 192-205): green eligible marker with the
approved-amount line, or red not-eligible marker with the optional
recommended-amount line.  The color reset of line 207 is applied by the
caller. -/
def verdictBlock (p : PDF) (er : EligibilityResults) : PDF :=
  if er.eligible.getD false then
    ((((p.set_font "B" 12).set_text_color ⟨0, 128, 0⟩).cell "ELIGIBLE FOR LOAN" false
          false).set_font "B" 11).cell
      ("Approved Amount: Rs" ++ fmtComma0 ((calcOf er).approved_loan_amount.getD 0)) false false
  else
    recommendedPart
      (((p.set_font "B" 12).set_text_color ⟨255, 0, 0⟩).cell "NOT ELIGIBLE AS PER CURRENT NORMS"
        false false)
      ((calcOf er).recommended_loan_amount.getD 0)

/-- The bulleted free-text loops of the issues and warnings blocks. -/
def bulletFold (items : List String) (p : PDF) : PDF :=
  items.foldl (fun q i => q.multi_cell ("  - " ++ i)) p

/-- The issues block (lines 210-217): red label, black bullets. -/
def issuesBlock (p : PDF) (er : EligibilityResults) : PDF :=
  if er.issues.isEmpty then p
  else
    bulletFold er.issues
      (((((p.set_font "B" 10).set_text_color ⟨255, 0, 0⟩).cell "Issues:" false
            false).set_text_color ⟨0, 0, 0⟩).set_font "" 9)

/-- The warnings block (lines 219-226): orange label, black bullets. -/
def warningsBlock (p : PDF) (er : EligibilityResults) : PDF :=
  if er.warnings.isEmpty then p
  else
    bulletFold er.warnings
      (((((p.set_font "B" 10).set_text_color ⟨255, 140, 0⟩).cell "Warnings:" false
            false).set_text_color ⟨0, 0, 0⟩).set_font "" 9)

/-- Section 3, LOAN ELIGIBILITY SUMMARY (lines 167-228). -/
def eligSection (p : PDF) (a : ApplicantData) (er : EligibilityResults) : PDF :=
  warningsBlock (issuesBlock ((verdictBlock (eligFields p a er) er).set_text_color ⟨0, 0, 0⟩) er) er

/-- One row of the obligations table (lines 237-248). -/
def oblRow (o : Obligation) : List String :=
  [o.lender.getD "Unknown", pyTitle (o.«type».getD "Unknown"),
   "Rs" ++ fmtComma2 (o.amount.getD 0),
   if o.excluded.getD false then "Excluded" else "Active"]

/-- The running total of the obligations loop (lines 235-245): amounts
of the non-excluded records. -/
def totalEMI (obls : List Obligation) : Int :=
  obls.foldl (fun acc o => if o.excluded.getD false then acc else acc + o.amount.getD 0) 0

/-- The data passed to add_table for the obligations section: one row
per record plus the synthetic total row (lines 234-250). -/
def oblTableData (obls : List Obligation) : List (List String) :=
  obls.map oblRow ++ [["", "", "Rs" ++ fmtComma2 (totalEMI obls), "TOTAL"]]

/-- Section 4, EXISTING OBLIGATIONS (lines 230-259). -/
def obligationsSection (p : PDF) (obls : List Obligation) (cs : EligCalcs) : PDF :=
  (if obls.isEmpty then
      ((p.section_title "4. EXISTING OBLIGATIONS / EMI DETAILS").set_font "" 10).cell
        "No existing loan obligations identified" false false
    else
      (p.section_title "4. EXISTING OBLIGATIONS / EMI DETAILS").add_table
        ["Lender/Bank", "Loan Type", "Monthly EMI", "Status"] (oblTableData obls)).add_field
    "Total Existing Obligations (considered)"
    ("Rs" ++ fmtComma2 (cs.total_existing_obligations.getD 0) ++ " per month")

/-- The numbered pending-item loops of sections 5 and 6 (enumerate
starting at 1). -/
def numberedFold (items : List String) (p : PDF) : PDF :=
  items.enum.foldl (fun q x => q.multi_cell (natStr (x.1 + 1) ++ ". " ++ x.2)) p

/-- Section 5, PENDING DOCUMENTS (lines 261-276). -/
def pendingDocsSection (p : PDF) (pd : PendingDocs) : PDF :=
  (if pd.pending_documents.isEmpty then
      ((((p.section_title "5. PENDING DOCUMENTS").set_font "B" 10).set_text_color
            ⟨0, 128, 0⟩).cell "All mandatory documents uploaded" false false).set_text_color
        ⟨0, 0, 0⟩
    else
      numberedFold pd.pending_documents
        ((p.section_title "5. PENDING DOCUMENTS").set_font "" 10)).add_field "Document Completion"
    (intStr (pd.completion_percentage.getD 0) ++ "%")

/-- Section 6, PENDING FORM DETAILS (lines 278-293). -/
def pendingFormsSection (p : PDF) (pf : PendingForms) : PDF :=
  (if pf.pending_form_fields.isEmpty then
      ((((p.section_title "6. PENDING FORM DETAILS").set_font "B" 10).set_text_color
            ⟨0, 128, 0⟩).cell "All form details complete" false false).set_text_color ⟨0, 0, 0⟩
    else
      numberedFold pf.pending_form_fields
        ((p.section_title "6. PENDING FORM DETAILS").set_font "" 10)).add_field "Form Completion"
    (intStr (pf.completion_percentage.getD 0) ++ "%")

/-- The free-paragraph loop of section 7. -/
def queryFold (items : List String) (p : PDF) : PDF :=
  items.foldl (fun q s => q.multi_cell s) p

/-- Section 7, PROBABLE QUERIES (lines 295-306). -/
def queriesSection (p : PDF) (qs : List String) : PDF :=
  if qs.isEmpty then
    ((((p.section_title "7. PROBABLE QUERIES").set_font "B" 10).set_text_color ⟨0, 128, 0⟩).cell
        "No queries identified. File appears complete." false false).set_text_color ⟨0, 0, 0⟩
  else
    queryFold qs ((p.section_title "7. PROBABLE QUERIES").set_font "" 9)

/-- The closing disclaimer paragraph (lines 308-312). -/
def noteText : String :=
  "Note: This is an AI-generated analysis. Please verify all information with actual documents. Aadhar numbers are masked showing only last 4 digits. PAN numbers are masked showing only last 4 characters."

/-- The closing disclaimer: small italic gray text, no later reset (it
is the final emission). -/
def disclaimer (p : PDF) : PDF :=
  ((p.set_font "I" 8).set_text_color ⟨100, 100, 100⟩).multi_cell noteText

/-- ReportGenerator.generate_report (lines 68-315), with the wall
clock injected as the now string.  The output destination, the unused
bank_statement_data parameter and the final pdf.output write are
outside the modelled content.  A none result models the KeyError
raised at line 84 for an uploaded-document descriptor without a
document_type. -/
def generate_report (applicant_data : ApplicantData) (salary_analysis : SalaryAnalysis)
    (eligibility_results : EligibilityResults) (obligations : List Obligation)
    (pending_docs : PendingDocs) (pending_forms : PendingForms) (queries : List String)
    (now : String) : Option PDF :=
  match docsSection (((PDF.init.add_page).set_font "I" 9).cell ("Generated on: " ++ now) false false)
      pending_docs with
  | none => none
  | some p =>
      some (disclaimer (queriesSection (pendingFormsSection (pendingDocsSection
        (obligationsSection
          (eligSection (salarySection (applicantSection p applicant_data) salary_analysis)
            applicant_data eligibility_results)
          obligations (calcOf eligibility_results))
        pending_docs) pending_forms) queries))

/-- The cells of an optional document; a failed render has no
output. -/
def cellsOf : Option PDF → List Cell
  | none => []
  | some p => p.cells

/-- The label / value cell pair emitted by add_field at black text
color. -/
def fieldCells (label value : String) : List Cell :=
  [⟨label ++ ":", false, "B", 10, ⟨0, 0, 0⟩, false⟩,
   ⟨value, false, "", 10, ⟨0, 0, 0⟩, false⟩]

/-- The white-on-blue banner cell emitted by section_title. -/
def bannerCell (t : String) : Cell := ⟨t, false, "B", 14, ⟨255, 255, 255⟩, true⟩

/-- A bordered filled table header cell (bold 9pt, black text). -/
def headCell (s : String) : Cell := ⟨s, true, "B", 9, ⟨0, 0, 0⟩, true⟩

/-- A bordered table data cell (regular 8pt, black text). -/
def rowCell (s : String) : Cell := ⟨s, true, "", 8, ⟨0, 0, 0⟩, false⟩

/-- The cells emitted for one uploaded-document descriptor that has a
document_type. -/
def docCells (d : UploadedDoc) : List Cell :=
  match d.document_type with
  | none => []
  | some ty =>
      ⟨"- " ++ ty, false, "B", 10, ⟨0, 0, 0⟩, false⟩ ::
      ((match d.period with
        | none => []
        | some per =>
            [⟨"", false, "", 9, ⟨0, 0, 0⟩, false⟩,
             ⟨"  Period: " ++ d.period_start.getD "N/A" ++ " to " ++ d.period_end.getD "N/A" ++
                " (" ++ per ++ ")", false, "", 9, ⟨0, 0, 0⟩, false⟩]) ++
       (if optTruthy d.warning then
          [⟨"", false, "", 9, ⟨255, 0, 0⟩, false⟩,
           ⟨"  warning " ++ d.warning.getD "", false, "", 9, ⟨255, 0, 0⟩, false⟩]
        else []))

/-- The cells of the DOCUMENTS UPLOADED block. -/
def docsSectionCells (pd : PendingDocs) : List Cell :=
  bannerCell "DOCUMENTS UPLOADED" :: (pd.uploaded_documents_details.map docCells).flatten

/-- The cells of the APPLICANT SUMMARY section. -/
def applicantCells (a : ApplicantData) : List Cell :=
  bannerCell "1. APPLICANT SUMMARY" ::
  (fieldCells "Applicant Name" (a.applicant_name.getD "N/A") ++
   fieldCells "PAN" (a.pan_masked.getD "N/A") ++
   fieldCells "Aadhar" (a.aadhar_masked.getD "N/A") ++
   fieldCells "Date of Birth" (a.date_of_birth.getD "N/A") ++
   fieldCells "Current Age" (optIntStr a.current_age ++ " years") ++
   fieldCells "Mobile Number" (a.mobile_no.getD "N/A") ++
   fieldCells "Email ID" (a.email_id.getD "N/A") ++
   fieldCells "Current Address" (a.current_address.getD "N/A") ++
   fieldCells "Employment Type" "Salaried" ++
   fieldCells "Employer/Company" (a.employer.getD "N/A") ++
   fieldCells "Designation" (a.designation.getD "N/A") ++
   fieldCells "Department" (a.department.getD "N/A") ++
   fieldCells "Job Since" (a.job_since.getD "N/A") ++
   fieldCells "Total Experience" (a.total_experience.getD "N/A") ++
   fieldCells "Office Address" (a.office_address.getD "N/A"))

/-- The cells of the salary section: either the placeholder or the
header row plus at most three slip rows. -/
def salaryCells (sa : SalaryAnalysis) : List Cell :=
  bannerCell "2. COMPLETE SALARY BREAKUP (Last 3 Months)" ::
  (if sa.salary_slips.isEmpty then
     [⟨"Salary details unavailable", false, "I", 9, ⟨0, 0, 0⟩, false⟩]
   else
     salaryHeaders.map headCell ++ ((salaryRows sa).map (fun r => r.map rowCell)).flatten)

/-- The cells of the verdict block. -/
def verdictCells (er : EligibilityResults) : List Cell :=
  if er.eligible.getD false then
    [⟨"ELIGIBLE FOR LOAN", false, "B", 12, ⟨0, 128, 0⟩, false⟩,
     ⟨"Approved Amount: Rs" ++ fmtComma0 ((calcOf er).approved_loan_amount.getD 0), false, "B",
       11, ⟨0, 128, 0⟩, false⟩]
  else
    ⟨"NOT ELIGIBLE AS PER CURRENT NORMS", false, "B", 12, ⟨255, 0, 0⟩, false⟩ ::
    (if 0 < (calcOf er).recommended_loan_amount.getD 0 then
       [⟨"Recommended Amount: Rs" ++ fmtComma0 ((calcOf er).recommended_loan_amount.getD 0),
          false, "B", 11, ⟨255, 0, 0⟩, false⟩]
     else [])

/-- The cells of the issues block. -/
def issuesCells (er : EligibilityResults) : List Cell :=
  if er.issues.isEmpty then []
  else
    ⟨"Issues:", false, "B", 10, ⟨255, 0, 0⟩, false⟩ ::
    er.issues.map (fun i => ⟨"  - " ++ i, false, "", 9, ⟨0, 0, 0⟩, false⟩)

/-- The cells of the warnings block. -/
def warningsCells (er : EligibilityResults) : List Cell :=
  if er.warnings.isEmpty then []
  else
    ⟨"Warnings:", false, "B", 10, ⟨255, 140, 0⟩, false⟩ ::
    er.warnings.map (fun i => ⟨"  - " ++ i, false, "", 9, ⟨0, 0, 0⟩, false⟩)

/-- The cells of the LOAN ELIGIBILITY SUMMARY section. -/
def eligCells (a : ApplicantData) (er : EligibilityResults) : List Cell :=
  bannerCell "3. LOAN ELIGIBILITY SUMMARY" ::
  (fieldCells "Requested Loan Amount" ("Rs" ++ fmtComma0 (a.loan_amount.getD 0)) ++
   fieldCells "Tenure (Auto-calculated based on age)"
     (optIntStr (calcOf er).approved_tenure_years ++ " years") ++
   fieldCells "Interest Rate" (a.interest_rate.getD "8.5" ++ "% p.a.") ++
   fieldCells "Current Age" (optIntStr (calcOf er).current_age ++ " years") ++
   fieldCells "Maximum Age Limit" "60 years" ++
   fieldCells "Remaining Service Years"
     (optIntStr (calcOf er).remaining_service_years ++ " years") ++
   fieldCells "Maximum Tenure Allowed" (optIntStr (calcOf er).max_tenure_allowed ++ " years") ++
   fieldCells "Current FOIR (before new loan)"
     (fmtPlain2 ((calcOf er).current_foir_percent.getD 0) ++ "%") ++
   fieldCells "FOIR with Requested Loan"
     (fmtPlain2 ((calcOf er).foir_with_requested_loan.getD 0) ++ "%") ++
   fieldCells "Maximum FOIR Allowed" "60.00%" ++
   fieldCells "EMI for Requested Loan"
     ("Rs" ++ fmtComma2 ((calcOf er).emi_for_requested_loan.getD 0)) ++
   fieldCells "Maximum EMI Capacity" ("Rs" ++ fmtComma2 ((calcOf er).max_emi_allowed.getD 0)) ++
   fieldCells "Maximum Loan by Income"
     ("Rs" ++ fmtComma2 ((calcOf er).max_loan_by_income.getD 0)) ++
   verdictCells er ++ issuesCells er ++ warningsCells er)

/-- The cells of the EXISTING OBLIGATIONS section. -/
def oblCells (obls : List Obligation) (cs : EligCalcs) : List Cell :=
  bannerCell "4. EXISTING OBLIGATIONS / EMI DETAILS" ::
  ((if obls.isEmpty then
      [⟨"No existing loan obligations identified", false, "", 10, ⟨0, 0, 0⟩, false⟩]
    else
      ["Lender/Bank", "Loan Type", "Monthly EMI", "Status"].map headCell ++
        ((oblTableData obls).map (fun r => r.map rowCell)).flatten) ++
   fieldCells "Total Existing Obligations (considered)"
     ("Rs" ++ fmtComma2 (cs.total_existing_obligations.getD 0) ++ " per month"))

/-- The cells of the PENDING DOCUMENTS section. -/
def pendingDocCells (pd : PendingDocs) : List Cell :=
  bannerCell "5. PENDING DOCUMENTS" ::
  ((if pd.pending_documents.isEmpty then
      [⟨"All mandatory documents uploaded", false, "B", 10, ⟨0, 128, 0⟩, false⟩]
    else
      pd.pending_documents.enum.map
        (fun x => ⟨natStr (x.1 + 1) ++ ". " ++ x.2, false, "", 10, ⟨0, 0, 0⟩, false⟩)) ++
   fieldCells "Document Completion" (intStr (pd.completion_percentage.getD 0) ++ "%"))

/-- The cells of the PENDING FORM DETAILS section. -/
def pendingFormCells (pf : PendingForms) : List Cell :=
  bannerCell "6. PENDING FORM DETAILS" ::
  ((if pf.pending_form_fields.isEmpty then
      [⟨"All form details complete", false, "B", 10, ⟨0, 128, 0⟩, false⟩]
    else
      pf.pending_form_fields.enum.map
        (fun x => ⟨natStr (x.1 + 1) ++ ". " ++ x.2, false, "", 10, ⟨0, 0, 0⟩, false⟩)) ++
   fieldCells "Form Completion" (intStr (pf.completion_percentage.getD 0) ++ "%"))

/-- The cells of the PROBABLE QUERIES section. -/
def queryCells (qs : List String) : List Cell :=
  bannerCell "7. PROBABLE QUERIES" ::
  (if qs.isEmpty then
     [⟨"No queries identified. File appears complete.", false, "B", 10, ⟨0, 128, 0⟩, false⟩]
   else qs.map (fun q => ⟨q, false, "", 9, ⟨0, 0, 0⟩, false⟩))

/-- The closing disclaimer cell: italic 8pt gray. -/
def disclaimerCells : List Cell := [⟨noteText, false, "I", 8, ⟨100, 100, 100⟩, false⟩]

/-- The complete cell stream of a successful render. -/
def reportCells (a : ApplicantData) (sa : SalaryAnalysis) (er : EligibilityResults)
    (obls : List Obligation) (pd : PendingDocs) (pf : PendingForms) (qs : List String)
    (now : String) : List Cell :=
  ⟨"LOAN APPLICATION ANALYSIS REPORT", false, "B", 16, ⟨0, 0, 0⟩, false⟩ ::
  ⟨"Generated on: " ++ now, false, "I", 9, ⟨0, 0, 0⟩, false⟩ ::
  (docsSectionCells pd ++ applicantCells a ++ salaryCells sa ++ eligCells a er ++
   oblCells obls (calcOf er) ++ pendingDocCells pd ++ pendingFormCells pf ++ queryCells qs ++
   disclaimerCells)

/-- Boolean equality of colors. -/
def colorEq (x y : Color) : Bool := x.r == y.r && x.g == y.g && x.b == y.b

/-- A cell is within the color discipline of the spec when it is black
(the default), renders no text, or is one of the designated colored
emissions: a filled white-on-blue section banner, a red
uploaded-document warning line (regular 9pt), the red not-eligible
verdict, a red recommended-amount line (bold 11pt), the red Issues
label, the green eligible verdict, a green approved-amount line (bold
11pt), a green all-clear confirmation, the orange Warnings label, or
the gray closing disclaimer (italic 8pt). -/
def goodCell (c : Cell) : Bool :=
  colorEq c.color ⟨0, 0, 0⟩ ||
  c.text == "" ||
  (c.fill && colorEq c.color ⟨255, 255, 255⟩) ||
  (colorEq c.color ⟨255, 0, 0⟩ && c.style == "" && c.size == 9) ||
  (colorEq c.color ⟨255, 0, 0⟩ && c.style == "B" && c.size == 12 &&
    c.text == "NOT ELIGIBLE AS PER CURRENT NORMS") ||
  (colorEq c.color ⟨255, 0, 0⟩ && c.style == "B" && c.size == 11) ||
  (colorEq c.color ⟨255, 0, 0⟩ && c.style == "B" && c.size == 10 && c.text == "Issues:") ||
  (colorEq c.color ⟨0, 128, 0⟩ && c.style == "B" && c.size == 12 &&
    c.text == "ELIGIBLE FOR LOAN") ||
  (colorEq c.color ⟨0, 128, 0⟩ && c.style == "B" && c.size == 11) ||
  (colorEq c.color ⟨0, 128, 0⟩ && c.style == "B" && c.size == 10 &&
    (c.text == "All mandatory documents uploaded" || c.text == "All form details complete" ||
     c.text == "No queries identified. File appears complete.")) ||
  (colorEq c.color ⟨255, 140, 0⟩ && c.style == "B" && c.size == 10 && c.text == "Warnings:") ||
  (colorEq c.color ⟨100, 100, 100⟩ && c.style == "I" && c.size == 8)

/-- The sum the spec describes for the total row: amounts of exactly
the records whose excluded flag is false. -/
def sumNonExcluded (obls : List Obligation) : Int :=
  ((obls.filter (fun o => !(o.excluded.getD false))).map (fun o => o.amount.getD 0)).sum

/-- Characters that can occur in a formatted amount: digits, the
thousands comma and a leading minus sign. -/
def isNumChar (c : Char) : Bool := c.isDigit || c == ',' || c == '-'

theorem foldl_emit {α : Type} (f : PDF → α → PDF) (g : α → List Cell) (I : PDF → Prop)
    (hf : ∀ p a, I p → (f p a).cells = p.cells ++ g a ∧ I (f p a)) :
    ∀ (l : List α) (p : PDF), I p →
      (l.foldl f p).cells = p.cells ++ (l.map g).flatten ∧ I (l.foldl f p) := by
  intro l
  induction l with
  | nil => intro p hp; simpa using hp
  | cons a as ih =>
      intro p hp
      obtain ⟨h1, h2⟩ := hf p a hp
      obtain ⟨h3, h4⟩ := ih (f p a) h2
      refine ⟨?_, by rw [List.foldl_cons]; exact h4⟩
      rw [List.foldl_cons, h3, h1]
      simp

theorem flatten_map_singleton {α β : Type} (f : α → β) :
    ∀ l : List α, (l.map (fun a => [f a])).flatten = l.map f := by
  intro l; induction l with
  | nil => rfl
  | cons a as ih => simp [ih]

theorem applicantSection_spec (p : PDF) (a : ApplicantData) :
    (applicantSection p a).cells = p.cells ++ applicantCells a ∧
    (applicantSection p a).curColor = ⟨0, 0, 0⟩ := by
  constructor <;>
    simp [applicantSection, applicantCells, fieldCells, bannerCell, PDF.section_title,
      PDF.add_field, PDF.cell, PDF.multi_cell, PDF.set_font, PDF.set_text_color,
      PDF.set_fill_color]

theorem headerFold_spec (hs : List String) (p : PDF)
    (h : p.curStyle = "B" ∧ p.curSize = 9 ∧ p.curColor = ⟨0, 0, 0⟩) :
    (headerFold hs p).cells = p.cells ++ hs.map headCell ∧
    (headerFold hs p).curStyle = "B" ∧ (headerFold hs p).curSize = 9 ∧
    (headerFold hs p).curColor = ⟨0, 0, 0⟩ := by
  have := foldl_emit (fun q h => q.cell h true true) (fun h => [headCell h])
    (fun q => q.curStyle = "B" ∧ q.curSize = 9 ∧ q.curColor = ⟨0, 0, 0⟩)
    (by rintro q a ⟨h1, h2, h3⟩; simp [PDF.cell, headCell, h1, h2, h3]) hs p h
  rw [flatten_map_singleton] at this
  exact ⟨this.1, this.2⟩

theorem dataFold_spec (rows : List (List String)) (p : PDF)
    (h : p.curStyle = "" ∧ p.curSize = 8 ∧ p.curColor = ⟨0, 0, 0⟩) :
    (dataFold rows p).cells = p.cells ++ (rows.map (fun r => r.map rowCell)).flatten ∧
    (dataFold rows p).curStyle = "" ∧ (dataFold rows p).curSize = 8 ∧
    (dataFold rows p).curColor = ⟨0, 0, 0⟩ := by
  have := foldl_emit (fun q row => row.foldl (fun r c => r.cell c true false) q)
    (fun row => row.map rowCell)
    (fun q => q.curStyle = "" ∧ q.curSize = 8 ∧ q.curColor = ⟨0, 0, 0⟩)
    (fun q row hq => by
      have := foldl_emit (fun r c => r.cell c true false) (fun c => [rowCell c])
        (fun q => q.curStyle = "" ∧ q.curSize = 8 ∧ q.curColor = ⟨0, 0, 0⟩)
        (by rintro r c ⟨h1, h2, h3⟩; simp [PDF.cell, rowCell, h1, h2, h3]) row q hq
      rw [flatten_map_singleton] at this
      exact this) rows p h
  exact ⟨this.1, this.2⟩

@[simp] theorem set_font_cells (p : PDF) (s : String) (n : Nat) :
    (p.set_font s n).cells = p.cells := rfl

@[simp] theorem set_font_curStyle (p : PDF) (s : String) (n : Nat) :
    (p.set_font s n).curStyle = s := rfl

@[simp] theorem set_font_curSize (p : PDF) (s : String) (n : Nat) :
    (p.set_font s n).curSize = n := rfl

@[simp] theorem set_font_curColor (p : PDF) (s : String) (n : Nat) :
    (p.set_font s n).curColor = p.curColor := rfl

@[simp] theorem set_text_color_cells (p : PDF) (c : Color) :
    (p.set_text_color c).cells = p.cells := rfl

@[simp] theorem set_text_color_curStyle (p : PDF) (c : Color) :
    (p.set_text_color c).curStyle = p.curStyle := rfl

@[simp] theorem set_text_color_curSize (p : PDF) (c : Color) :
    (p.set_text_color c).curSize = p.curSize := rfl

@[simp] theorem set_text_color_curColor (p : PDF) (c : Color) :
    (p.set_text_color c).curColor = c := rfl

@[simp] theorem set_fill_color_cells (p : PDF) (c : Color) :
    (p.set_fill_color c).cells = p.cells := rfl

@[simp] theorem set_fill_color_curStyle (p : PDF) (c : Color) :
    (p.set_fill_color c).curStyle = p.curStyle := rfl

@[simp] theorem set_fill_color_curSize (p : PDF) (c : Color) :
    (p.set_fill_color c).curSize = p.curSize := rfl

@[simp] theorem set_fill_color_curColor (p : PDF) (c : Color) :
    (p.set_fill_color c).curColor = p.curColor := rfl

@[simp] theorem cell_cells (p : PDF) (t : String) (b f : Bool) :
    (p.cell t b f).cells = p.cells ++ [⟨t, b, p.curStyle, p.curSize, p.curColor, f⟩] := rfl

@[simp] theorem cell_curStyle (p : PDF) (t : String) (b f : Bool) :
    (p.cell t b f).curStyle = p.curStyle := rfl

@[simp] theorem cell_curSize (p : PDF) (t : String) (b f : Bool) :
    (p.cell t b f).curSize = p.curSize := rfl

@[simp] theorem cell_curColor (p : PDF) (t : String) (b f : Bool) :
    (p.cell t b f).curColor = p.curColor := rfl

@[simp] theorem multi_cell_cells (p : PDF) (t : String) :
    (p.multi_cell t).cells = p.cells ++ [⟨t, false, p.curStyle, p.curSize, p.curColor, false⟩] :=
  rfl

@[simp] theorem multi_cell_curStyle (p : PDF) (t : String) :
    (p.multi_cell t).curStyle = p.curStyle := rfl

@[simp] theorem multi_cell_curSize (p : PDF) (t : String) :
    (p.multi_cell t).curSize = p.curSize := rfl

@[simp] theorem multi_cell_curColor (p : PDF) (t : String) :
    (p.multi_cell t).curColor = p.curColor := rfl

@[simp] theorem section_title_cells (p : PDF) (t : String) :
    (p.section_title t).cells = p.cells ++ [bannerCell t] := rfl

@[simp] theorem section_title_curStyle (p : PDF) (t : String) :
    (p.section_title t).curStyle = "B" := rfl

@[simp] theorem section_title_curSize (p : PDF) (t : String) :
    (p.section_title t).curSize = 14 := rfl

@[simp] theorem section_title_curColor (p : PDF) (t : String) :
    (p.section_title t).curColor = ⟨0, 0, 0⟩ := rfl

@[simp] theorem add_field_cells (p : PDF) (l v : String) :
    (p.add_field l v).cells =
      p.cells ++ [⟨l ++ ":", false, "B", 10, p.curColor, false⟩,
        ⟨v, false, "", 10, p.curColor, false⟩] := by
  simp [PDF.add_field]

@[simp] theorem add_field_curStyle (p : PDF) (l v : String) :
    (p.add_field l v).curStyle = "" := rfl

@[simp] theorem add_field_curSize (p : PDF) (l v : String) :
    (p.add_field l v).curSize = 10 := rfl

@[simp] theorem add_field_curColor (p : PDF) (l v : String) :
    (p.add_field l v).curColor = p.curColor := rfl

theorem salarySection_spec (p : PDF) (sa : SalaryAnalysis) :
    (salarySection p sa).cells = p.cells ++ salaryCells sa ∧
    (salarySection p sa).curColor = ⟨0, 0, 0⟩ := by
  by_cases h : sa.salary_slips.isEmpty
  · constructor <;> simp [salarySection, salaryCells, h]
  · obtain ⟨hh1, _, _, hh4⟩ := headerFold_spec salaryHeaders
      (((p.section_title "2. COMPLETE SALARY BREAKUP (Last 3 Months)").set_font "B" 9).set_fill_color
        ⟨220, 220, 220⟩) (by simp)
    obtain ⟨hd1, _, _, hd4⟩ := dataFold_spec (salaryRows sa)
      ((headerFold salaryHeaders
          (((p.section_title "2. COMPLETE SALARY BREAKUP (Last 3 Months)").set_font "B" 9).set_fill_color
            ⟨220, 220, 220⟩)).set_font "" 8) (by simp [hh4])
    rw [salarySection, if_neg h]
    refine ⟨?_, hd4⟩
    rw [hd1]
    simp only [set_font_cells]
    rw [hh1]
    simp [salaryCells, h]

theorem eligFields_spec (p : PDF) (a : ApplicantData) (er : EligibilityResults) :
    (eligFields p a er).cells =
      p.cells ++ (eligCells a er).take 27 ∧
    (eligFields p a er).curColor = ⟨0, 0, 0⟩ := by
  constructor <;> simp [eligFields, eligCells, fieldCells, bannerCell]

theorem verdictBlock_spec (p : PDF) (er : EligibilityResults) :
    (verdictBlock p er).cells = p.cells ++ verdictCells er := by
  by_cases h : er.eligible.getD false
  · simp [verdictBlock, verdictCells, h]
  · by_cases hr : 0 < (calcOf er).recommended_loan_amount.getD 0 <;>
      simp [verdictBlock, verdictCells, recommendedPart, h, hr]

theorem bulletFold_spec (items : List String) (p : PDF)
    (h : p.curStyle = "" ∧ p.curSize = 9 ∧ p.curColor = ⟨0, 0, 0⟩) :
    (bulletFold items p).cells =
      p.cells ++ items.map (fun i => ⟨"  - " ++ i, false, "", 9, ⟨0, 0, 0⟩, false⟩) ∧
    (bulletFold items p).curColor = ⟨0, 0, 0⟩ := by
  have := foldl_emit (fun q i => q.multi_cell ("  - " ++ i))
    (fun i => [⟨"  - " ++ i, false, "", 9, ⟨0, 0, 0⟩, false⟩])
    (fun q => q.curStyle = "" ∧ q.curSize = 9 ∧ q.curColor = ⟨0, 0, 0⟩)
    (by rintro q a ⟨h1, h2, h3⟩; simp [h1, h2, h3]) items p h
  rw [flatten_map_singleton] at this
  exact ⟨this.1, this.2.2.2⟩

theorem issuesBlock_spec (p : PDF) (er : EligibilityResults) (h : p.curColor = ⟨0, 0, 0⟩) :
    (issuesBlock p er).cells = p.cells ++ issuesCells er ∧
    (issuesBlock p er).curColor = ⟨0, 0, 0⟩ := by
  by_cases he : er.issues.isEmpty
  · simp [issuesBlock, issuesCells, he, h]
  · obtain ⟨h1, h2⟩ := bulletFold_spec er.issues
      (((((p.set_font "B" 10).set_text_color ⟨255, 0, 0⟩).cell "Issues:" false
            false).set_text_color ⟨0, 0, 0⟩).set_font "" 9) (by simp)
    rw [issuesBlock, if_neg he]
    refine ⟨?_, h2⟩
    rw [h1]
    simp [issuesCells, he]

theorem warningsBlock_spec (p : PDF) (er : EligibilityResults) (h : p.curColor = ⟨0, 0, 0⟩) :
    (warningsBlock p er).cells = p.cells ++ warningsCells er ∧
    (warningsBlock p er).curColor = ⟨0, 0, 0⟩ := by
  by_cases he : er.warnings.isEmpty
  · simp [warningsBlock, warningsCells, he, h]
  · obtain ⟨h1, h2⟩ := bulletFold_spec er.warnings
      (((((p.set_font "B" 10).set_text_color ⟨255, 140, 0⟩).cell "Warnings:" false
            false).set_text_color ⟨0, 0, 0⟩).set_font "" 9) (by simp)
    rw [warningsBlock, if_neg he]
    refine ⟨?_, h2⟩
    rw [h1]
    simp [warningsCells, he]

theorem eligSection_spec (p : PDF) (a : ApplicantData) (er : EligibilityResults) :
    (eligSection p a er).cells = p.cells ++ eligCells a er ∧
    (eligSection p a er).curColor = ⟨0, 0, 0⟩ := by
  obtain ⟨hf1, _⟩ := eligFields_spec p a er
  obtain ⟨hi1, hi2⟩ := issuesBlock_spec
    ((verdictBlock (eligFields p a er) er).set_text_color ⟨0, 0, 0⟩) er (by simp)
  obtain ⟨hw1, hw2⟩ := warningsBlock_spec
    (issuesBlock ((verdictBlock (eligFields p a er) er).set_text_color ⟨0, 0, 0⟩) er) er hi2
  rw [eligSection]
  refine ⟨?_, hw2⟩
  rw [hw1, hi1]
  simp only [set_text_color_cells]
  rw [verdictBlock_spec, hf1]
  simp [eligCells, fieldCells, bannerCell]

theorem obligationsSection_spec (p : PDF) (obls : List Obligation) (cs : EligCalcs) :
    (obligationsSection p obls cs).cells = p.cells ++ oblCells obls cs ∧
    (obligationsSection p obls cs).curColor = ⟨0, 0, 0⟩ := by
  by_cases h : obls.isEmpty
  · constructor <;> simp [obligationsSection, oblCells, h, fieldCells]
  · obtain ⟨hh1, _, _, hh4⟩ := headerFold_spec ["Lender/Bank", "Loan Type", "Monthly EMI", "Status"]
      (((p.section_title "4. EXISTING OBLIGATIONS / EMI DETAILS").set_font "B" 9).set_fill_color
        ⟨200, 220, 255⟩) (by simp)
    obtain ⟨hd1, _, _, hd4⟩ := dataFold_spec (oblTableData obls)
      ((headerFold ["Lender/Bank", "Loan Type", "Monthly EMI", "Status"]
          (((p.section_title "4. EXISTING OBLIGATIONS / EMI DETAILS").set_font "B" 9).set_fill_color
            ⟨200, 220, 255⟩)).set_font "" 8) (by simp [hh4])
    rw [obligationsSection, if_neg h]
    constructor
    · rw [add_field_cells]
      rw [show (PDF.add_table (p.section_title "4. EXISTING OBLIGATIONS / EMI DETAILS")
          ["Lender/Bank", "Loan Type", "Monthly EMI", "Status"] (oblTableData obls)) =
          dataFold (oblTableData obls)
            ((headerFold ["Lender/Bank", "Loan Type", "Monthly EMI", "Status"]
                (((p.section_title "4. EXISTING OBLIGATIONS / EMI DETAILS").set_font "B"
                      9).set_fill_color ⟨200, 220, 255⟩)).set_font "" 8) from rfl]
      rw [hd1]
      simp only [set_font_cells]
      rw [hh1, hd4]
      simp [oblCells, h, fieldCells]
    · rw [add_field_curColor]
      exact hd4
  
theorem numberedFold_spec (items : List String) (p : PDF)
    (h : p.curStyle = "" ∧ p.curSize = 10 ∧ p.curColor = ⟨0, 0, 0⟩) :
    (numberedFold items p).cells =
      p.cells ++ items.enum.map
        (fun x => ⟨natStr (x.1 + 1) ++ ". " ++ x.2, false, "", 10, ⟨0, 0, 0⟩, false⟩) ∧
    (numberedFold items p).curColor = ⟨0, 0, 0⟩ := by
  have := foldl_emit (fun q x => q.multi_cell (natStr (x.1 + 1) ++ ". " ++ x.2))
    (fun x => [⟨natStr (x.1 + 1) ++ ". " ++ x.2, false, "", 10, ⟨0, 0, 0⟩, false⟩])
    (fun q => q.curStyle = "" ∧ q.curSize = 10 ∧ q.curColor = ⟨0, 0, 0⟩)
    (by rintro q a ⟨h1, h2, h3⟩; simp [h1, h2, h3]) items.enum p h
  rw [flatten_map_singleton] at this
  exact ⟨this.1, this.2.2.2⟩

theorem pendingDocsSection_spec (p : PDF) (pd : PendingDocs) :
    (pendingDocsSection p pd).cells = p.cells ++ pendingDocCells pd ∧
    (pendingDocsSection p pd).curColor = ⟨0, 0, 0⟩ := by
  by_cases h : pd.pending_documents.isEmpty
  · constructor <;> simp [pendingDocsSection, pendingDocCells, h, fieldCells]
  · obtain ⟨h1, h2⟩ := numberedFold_spec pd.pending_documents
      ((p.section_title "5. PENDING DOCUMENTS").set_font "" 10) (by simp)
    rw [pendingDocsSection, if_neg h]
    constructor
    · rw [add_field_cells, h1, h2]
      simp [pendingDocCells, h, fieldCells]
    · rw [add_field_curColor]
      exact h2

theorem pendingFormsSection_spec (p : PDF) (pf : PendingForms) :
    (pendingFormsSection p pf).cells = p.cells ++ pendingFormCells pf ∧
    (pendingFormsSection p pf).curColor = ⟨0, 0, 0⟩ := by
  by_cases h : pf.pending_form_fields.isEmpty
  · constructor <;> simp [pendingFormsSection, pendingFormCells, h, fieldCells]
  · obtain ⟨h1, h2⟩ := numberedFold_spec pf.pending_form_fields
      ((p.section_title "6. PENDING FORM DETAILS").set_font "" 10) (by simp)
    rw [pendingFormsSection, if_neg h]
    constructor
    · rw [add_field_cells, h1, h2]
      simp [pendingFormCells, h, fieldCells]
    · rw [add_field_curColor]
      exact h2

theorem queriesSection_spec (p : PDF) (qs : List String) :
    (queriesSection p qs).cells = p.cells ++ queryCells qs ∧
    (queriesSection p qs).curColor = ⟨0, 0, 0⟩ := by
  by_cases h : qs.isEmpty
  · constructor <;> simp [queriesSection, queryCells, h]
  · have := foldl_emit (fun q s => q.multi_cell s)
      (fun s => [⟨s, false, "", 9, ⟨0, 0, 0⟩, false⟩])
      (fun q => q.curStyle = "" ∧ q.curSize = 9 ∧ q.curColor = ⟨0, 0, 0⟩)
      (by rintro q a ⟨h1, h2, h3⟩; simp [h1, h2, h3]) qs
      ((p.section_title "7. PROBABLE QUERIES").set_font "" 9) (by simp)
    rw [flatten_map_singleton] at this
    rw [queriesSection, if_neg h]
    refine ⟨?_, this.2.2.2⟩
    rw [show queryFold qs ((p.section_title "7. PROBABLE QUERIES").set_font "" 9) =
        qs.foldl (fun q s => q.multi_cell s)
          ((p.section_title "7. PROBABLE QUERIES").set_font "" 9) from rfl]
    rw [this.1]
    simp [queryCells, h]

theorem disclaimer_spec (p : PDF) :
    (disclaimer p).cells = p.cells ++ disclaimerCells ∧
    (disclaimer p).curColor = ⟨100, 100, 100⟩ := by
  constructor <;> simp [disclaimer, disclaimerCells]

theorem renderDoc_spec (p : PDF) (d : UploadedDoc) (hc : p.curColor = ⟨0, 0, 0⟩)
    (ht : d.document_type.isSome = true) :
    ∃ q, renderDoc p d = some q ∧ q.cells = p.cells ++ docCells d ∧
      q.curColor = ⟨0, 0, 0⟩ := by
  match hty : d.document_type with
  | none => rw [hty] at ht; cases ht
  | some ty =>
      refine ⟨_, by rw [renderDoc, hty], ?_, ?_⟩ <;>
        rcases hper : d.period with _ | per <;>
          rcases hw : optTruthy d.warning with _ | _ <;>
            simp [warnPart, periodPart, docCells, hty, hper, hw, hc]

theorem docsFold_spec : ∀ (l : List UploadedDoc) (p : PDF), p.curColor = ⟨0, 0, 0⟩ →
    (∀ d ∈ l, d.document_type.isSome = true) →
    ∃ q, l.foldlM renderDoc p = some q ∧ q.cells = p.cells ++ (l.map docCells).flatten ∧
      q.curColor = ⟨0, 0, 0⟩ := by
  intro l
  induction l with
  | nil => intro p hc _; exact ⟨p, rfl, by simp, hc⟩
  | cons d ds ih =>
      intro p hc hall
      obtain ⟨q, hq, hqc, hqcol⟩ := renderDoc_spec p d hc (hall d (by simp))
      obtain ⟨r, hr, hrc, hrcol⟩ := ih q hqcol (fun x hx => hall x (by simp [hx]))
      refine ⟨r, ?_, ?_, hrcol⟩
      · rw [List.foldlM_cons, hq]
        simpa using hr
      · rw [hrc, hqc]
        simp

theorem docsSection_spec (p : PDF) (pd : PendingDocs)
    (h : ∀ d ∈ pd.uploaded_documents_details, d.document_type.isSome = true) :
    ∃ q, docsSection p pd = some q ∧ q.cells = p.cells ++ docsSectionCells pd ∧
      q.curColor = ⟨0, 0, 0⟩ := by
  by_cases he : pd.uploaded_documents_details.isEmpty
  · refine ⟨p.section_title "DOCUMENTS UPLOADED", by rw [docsSection, if_pos he], ?_, by simp⟩
    rw [List.isEmpty_iff] at he
    simp [docsSectionCells, he]
  · obtain ⟨q, hq, hqc, hqcol⟩ := docsFold_spec pd.uploaded_documents_details
      (p.section_title "DOCUMENTS UPLOADED") (by simp) h
    refine ⟨q, by rw [docsSection, if_neg he]; exact hq, ?_, hqcol⟩
    rw [hqc]
    simp [docsSectionCells]

theorem generate_report_spec (a : ApplicantData) (sa : SalaryAnalysis)
    (er : EligibilityResults) (obls : List Obligation) (pd : PendingDocs) (pf : PendingForms)
    (qs : List String) (now : String)
    (h : ∀ d ∈ pd.uploaded_documents_details, d.document_type.isSome = true) :
    ∃ P, generate_report a sa er obls pd pf qs now = some P ∧
      P.cells = reportCells a sa er obls pd pf qs now ∧ P.curColor = ⟨100, 100, 100⟩ := by
  obtain ⟨q, hq, hqc, hqcol⟩ := docsSection_spec
    (((PDF.init.add_page).set_font "I" 9).cell ("Generated on: " ++ now) false false) pd h
  refine ⟨_, by rw [generate_report, hq], ?_, (disclaimer_spec _).2⟩
  obtain ⟨h1, _⟩ := applicantSection_spec q a
  obtain ⟨h2, _⟩ := salarySection_spec (applicantSection q a) sa
  obtain ⟨h3, _⟩ := eligSection_spec (salarySection (applicantSection q a) sa) a er
  obtain ⟨h4, _⟩ := obligationsSection_spec
    (eligSection (salarySection (applicantSection q a) sa) a er) obls (calcOf er)
  obtain ⟨h5, _⟩ := pendingDocsSection_spec
    (obligationsSection (eligSection (salarySection (applicantSection q a) sa) a er) obls
      (calcOf er)) pd
  obtain ⟨h6, _⟩ := pendingFormsSection_spec
    (pendingDocsSection
      (obligationsSection (eligSection (salarySection (applicantSection q a) sa) a er) obls
        (calcOf er)) pd) pf
  obtain ⟨h7, _⟩ := queriesSection_spec
    (pendingFormsSection
      (pendingDocsSection
        (obligationsSection (eligSection (salarySection (applicantSection q a) sa) a er) obls
          (calcOf er)) pd) pf) qs
  obtain ⟨h8, _⟩ := disclaimer_spec
    (queriesSection
      (pendingFormsSection
        (pendingDocsSection
          (obligationsSection (eligSection (salarySection (applicantSection q a) sa) a er) obls
            (calcOf er)) pd) pf) qs)
  rw [h8, h7, h6, h5, h4, h3, h2, h1, hqc]
  simp [reportCells, PDF.add_page, PDF.header, PDF.init]

theorem docsFold_none : ∀ (l : List UploadedDoc) (p : PDF),
    (∃ d ∈ l, d.document_type = none) → l.foldlM renderDoc p = none := by
  intro l
  induction l with
  | nil => intro p h; simp at h
  | cons d ds ih =>
      intro p h
      rw [List.foldlM_cons]
      rcases h with ⟨x, hx, hxt⟩
      rcases List.mem_cons.mp hx with rfl | hmem
      · rw [show renderDoc p x = none from by simp [renderDoc, hxt]]
        rfl
      · cases hr : renderDoc p d with
        | none => rfl
        | some q => simpa using ih q ⟨x, hmem, hxt⟩

theorem generate_report_none (a : ApplicantData) (sa : SalaryAnalysis)
    (er : EligibilityResults) (obls : List Obligation) (pd : PendingDocs) (pf : PendingForms)
    (qs : List String) (now : String)
    (h : ∃ d ∈ pd.uploaded_documents_details, d.document_type = none) :
    generate_report a sa er obls pd pf qs now = none := by
  have hne : ¬ pd.uploaded_documents_details.isEmpty = true := by
    rcases h with ⟨d, hd, _⟩
    intro hc
    rw [List.isEmpty_iff] at hc
    rw [hc] at hd
    simp at hd
  rw [generate_report, docsSection, if_neg hne, docsFold_none _ _ h]

theorem all_map_good {α : Type} (f : α → Cell) (h : ∀ a, goodCell (f a) = true)
    (l : List α) : (l.map f).all goodCell = true := by
  induction l with
  | nil => rfl
  | cons a as ih => simp [h, ih]

theorem all_flatten_good (L : List (List Cell)) (h : ∀ x ∈ L, x.all goodCell = true) :
    L.flatten.all goodCell = true := by
  induction L with
  | nil => rfl
  | cons x xs ih =>
      rw [List.flatten_cons, List.all_append, h x (by simp), ih (fun y hy => h y (by simp [hy]))]
      rfl

theorem good_fieldCells (l v : String) : (fieldCells l v).all goodCell = true := by
  simp [fieldCells, goodCell, colorEq]

theorem good_docCells (d : UploadedDoc) : (docCells d).all goodCell = true := by
  rcases hty : d.document_type with _ | ty <;>
    rcases hper : d.period with _ | per <;>
      rcases hw : optTruthy d.warning with _ | _ <;>
        simp [docCells, hty, hper, hw, goodCell, colorEq]

theorem good_docsSectionCells (pd : PendingDocs) : (docsSectionCells pd).all goodCell = true := by
  rw [docsSectionCells, List.all_cons]
  rw [show goodCell (bannerCell "DOCUMENTS UPLOADED") = true from by
    simp [goodCell, colorEq, bannerCell]]
  rw [all_flatten_good _ (by
    intro x hx
    rcases List.mem_map.mp hx with ⟨d, _, rfl⟩
    exact good_docCells d)]
  rfl

theorem good_applicantCells (a : ApplicantData) : (applicantCells a).all goodCell = true := by
  simp [applicantCells, List.all_append, good_fieldCells, goodCell, colorEq, bannerCell]

theorem good_salaryCells (sa : SalaryAnalysis) : (salaryCells sa).all goodCell = true := by
  by_cases h : sa.salary_slips.isEmpty
  · simp [salaryCells, h, goodCell, colorEq, bannerCell]
  · rw [salaryCells, if_neg h, List.all_cons]
    rw [show goodCell (bannerCell "2. COMPLETE SALARY BREAKUP (Last 3 Months)") = true from by
      simp [goodCell, colorEq, bannerCell]]
    rw [List.all_append]
    rw [all_map_good headCell (fun s => by simp [headCell, goodCell, colorEq]) salaryHeaders]
    rw [all_flatten_good _ (by
      intro x hx
      rcases List.mem_map.mp hx with ⟨r, _, rfl⟩
      exact all_map_good rowCell (fun s => by simp [rowCell, goodCell, colorEq]) r)]
    rfl

theorem good_verdictCells (er : EligibilityResults) : (verdictCells er).all goodCell = true := by
  by_cases h : er.eligible.getD false
  · simp [verdictCells, h, goodCell, colorEq]
  · by_cases hr : 0 < (calcOf er).recommended_loan_amount.getD 0 <;>
      simp [verdictCells, h, hr, goodCell, colorEq]

theorem good_issuesCells (er : EligibilityResults) : (issuesCells er).all goodCell = true := by
  by_cases h : er.issues.isEmpty
  · simp [issuesCells, h]
  · rw [issuesCells, if_neg h, List.all_cons]
    rw [show goodCell ⟨"Issues:", false, "B", 10, ⟨255, 0, 0⟩, false⟩ = true from by
      simp [goodCell, colorEq]]
    rw [all_map_good _ (fun i => by simp [goodCell, colorEq])]
    rfl

theorem good_warningsCells (er : EligibilityResults) : (warningsCells er).all goodCell = true := by
  by_cases h : er.warnings.isEmpty
  · simp [warningsCells, h]
  · rw [warningsCells, if_neg h, List.all_cons]
    rw [show goodCell ⟨"Warnings:", false, "B", 10, ⟨255, 140, 0⟩, false⟩ = true from by
      simp [goodCell, colorEq]]
    rw [all_map_good _ (fun i => by simp [goodCell, colorEq])]
    rfl

theorem good_eligCells (a : ApplicantData) (er : EligibilityResults) :
    (eligCells a er).all goodCell = true := by
  rw [eligCells, List.all_cons]
  rw [show goodCell (bannerCell "3. LOAN ELIGIBILITY SUMMARY") = true from by
    simp [goodCell, colorEq, bannerCell]]
  simp only [List.all_append, good_fieldCells, good_verdictCells, good_issuesCells,
    good_warningsCells]
  rfl

theorem good_oblCells (obls : List Obligation) (cs : EligCalcs) :
    (oblCells obls cs).all goodCell = true := by
  rw [oblCells, List.all_cons]
  rw [show goodCell (bannerCell "4. EXISTING OBLIGATIONS / EMI DETAILS") = true from by
    simp [goodCell, colorEq, bannerCell]]
  rw [List.all_append]
  rw [good_fieldCells]
  by_cases h : obls.isEmpty
  · simp [h, goodCell, colorEq]
  · rw [if_neg h, List.all_append]
    rw [all_map_good headCell (fun s => by simp [headCell, goodCell, colorEq])]
    rw [all_flatten_good _ (by
      intro x hx
      rcases List.mem_map.mp hx with ⟨r, _, rfl⟩
      exact all_map_good rowCell (fun s => by simp [rowCell, goodCell, colorEq]) r)]
    rfl

theorem good_pendingDocCells (pd : PendingDocs) : (pendingDocCells pd).all goodCell = true := by
  rw [pendingDocCells, List.all_cons]
  rw [show goodCell (bannerCell "5. PENDING DOCUMENTS") = true from by
    simp [goodCell, colorEq, bannerCell]]
  rw [List.all_append, good_fieldCells]
  by_cases h : pd.pending_documents.isEmpty
  · simp [h, goodCell, colorEq]
  · rw [if_neg h]
    rw [all_map_good _ (fun x => by simp [goodCell, colorEq])]
    rfl

theorem good_pendingFormCells (pf : PendingForms) : (pendingFormCells pf).all goodCell = true := by
  rw [pendingFormCells, List.all_cons]
  rw [show goodCell (bannerCell "6. PENDING FORM DETAILS") = true from by
    simp [goodCell, colorEq, bannerCell]]
  rw [List.all_append, good_fieldCells]
  by_cases h : pf.pending_form_fields.isEmpty
  · simp [h, goodCell, colorEq]
  · rw [if_neg h]
    rw [all_map_good _ (fun x => by simp [goodCell, colorEq])]
    rfl

theorem good_queryCells (qs : List String) : (queryCells qs).all goodCell = true := by
  rw [queryCells, List.all_cons]
  rw [show goodCell (bannerCell "7. PROBABLE QUERIES") = true from by
    simp [goodCell, colorEq, bannerCell]]
  by_cases h : qs.isEmpty
  · simp [h, goodCell, colorEq]
  · rw [if_neg h]
    rw [all_map_good _ (fun x => by simp [goodCell, colorEq])]
    rfl

theorem good_reportCells (a : ApplicantData) (sa : SalaryAnalysis) (er : EligibilityResults)
    (obls : List Obligation) (pd : PendingDocs) (pf : PendingForms) (qs : List String)
    (now : String) : (reportCells a sa er obls pd pf qs now).all goodCell = true := by
  rw [reportCells, List.all_cons, List.all_cons]
  rw [show goodCell ⟨"LOAN APPLICATION ANALYSIS REPORT", false, "B", 16, ⟨0, 0, 0⟩, false⟩ =
      true from by simp [goodCell, colorEq]]
  rw [show goodCell ⟨"Generated on: " ++ now, false, "I", 9, ⟨0, 0, 0⟩, false⟩ = true from by
    simp [goodCell, colorEq]]
  simp only [List.all_append, good_docsSectionCells, good_applicantCells, good_salaryCells,
    good_eligCells, good_oblCells, good_pendingDocCells, good_pendingFormCells, good_queryCells]
  simp [disclaimerCells, goodCell, colorEq]

theorem totalEMI_aux (l : List Obligation) : ∀ acc : Int,
    l.foldl (fun acc o => if o.excluded.getD false then acc else acc + o.amount.getD 0) acc =
      acc + sumNonExcluded l := by
  induction l with
  | nil => intro acc; simp [sumNonExcluded]
  | cons o os ih =>
      intro acc
      rw [List.foldl_cons]
      cases h : o.excluded.getD false
      · rw [if_neg (by simp [h]), ih]
        simp [sumNonExcluded, List.filter_cons, h, add_assoc]
      · rw [if_pos rfl, ih]
        simp [sumNonExcluded, List.filter_cons, h]

theorem totalEMI_eq (obls : List Obligation) : totalEMI obls = sumNonExcluded obls := by
  rw [totalEMI, totalEMI_aux]
  simp

theorem isNumChar_digitChar (m : Nat) (h : m < 10) : isNumChar (digitChar m) = true := by
  interval_cases m <;> decide

theorem natDigitsAux_chars : ∀ (fuel n : Nat) (acc : List Char),
    (∀ c ∈ acc, isNumChar c = true) → ∀ c ∈ natDigitsAux fuel n acc, isNumChar c = true := by
  intro fuel
  induction fuel with
  | zero => intro n acc hacc c hc; exact hacc c hc
  | succ f ih =>
      intro n acc hacc c hc
      rw [natDigitsAux] at hc
      by_cases hn : n = 0
      · rw [if_pos hn] at hc; exact hacc c hc
      · rw [if_neg hn] at hc
        refine ih (n / 10) _ ?_ c hc
        intro x hx
        rcases List.mem_cons.mp hx with rfl | hx
        · exact isNumChar_digitChar _ (Nat.mod_lt _ (by decide))
        · exact hacc x hx

theorem natDigits_chars (n : Nat) : ∀ c ∈ natDigits n, isNumChar c = true := by
  intro c hc
  rw [natDigits] at hc
  by_cases hn : n = 0
  · rw [if_pos hn] at hc; simp at hc; subst hc; decide
  · rw [if_neg hn] at hc
    exact natDigitsAux_chars _ _ _ (by simp) c hc

theorem chunk3_chars : ∀ (l : List Char) (c : Char), c ∈ chunk3 l → c ∈ l ∨ c = ','
  | [], c, h => by simpa [chunk3] using Or.inl h
  | [a], c, h => by simpa [chunk3] using Or.inl h
  | [a, b], c, h => by simpa [chunk3] using Or.inl h
  | [a, b, e], c, h => by simpa [chunk3] using Or.inl h
  | a :: b :: e :: d :: rest, c, h => by
      rw [chunk3] at h
      rcases List.mem_cons.mp h with rfl | h
      · exact Or.inl (by simp)
      rcases List.mem_cons.mp h with rfl | h
      · exact Or.inl (by simp)
      rcases List.mem_cons.mp h with rfl | h
      · exact Or.inl (by simp)
      rcases List.mem_cons.mp h with rfl | h
      · exact Or.inr rfl
      · rcases chunk3_chars (d :: rest) c h with hm | hm
        · exact Or.inl (by simp [List.mem_cons.mp hm])
        · exact Or.inr hm

theorem commaGroup_chars (n : Nat) : ∀ c ∈ (commaGroup n).data, isNumChar c = true := by
  intro c hc
  rw [commaGroup] at hc
  rw [show (String.mk (chunk3 (natDigits n).reverse).reverse).data =
      (chunk3 (natDigits n).reverse).reverse from rfl] at hc
  rw [List.mem_reverse] at hc
  rcases chunk3_chars _ c hc with hm | rfl
  · exact natDigits_chars n c (List.mem_reverse.mp hm)
  · decide

theorem fmtComma0_chars (x : Int) : ∀ c ∈ (fmtComma0 x).data, isNumChar c = true := by
  intro c hc
  rw [fmtComma0, String.data_append] at hc
  rcases List.mem_append.mp hc with hm | hm
  · by_cases hx : x < 0
    · rw [if_pos hx] at hm
      simp at hm
      subst hm
      decide
    · rw [if_neg hx] at hm
      simp at hm
  · exact commaGroup_chars _ c hm

theorem salarySection_take3 (p : PDF) (sa : SalaryAnalysis) :
    salarySection p ⟨sa.salary_slips.take 3⟩ = salarySection p sa := by
  have hemp : (SalaryAnalysis.mk (sa.salary_slips.take 3)).salary_slips.isEmpty =
      sa.salary_slips.isEmpty := by
    rcases sa.salary_slips with _ | ⟨x, xs⟩ <;> rfl
  rw [salarySection, salarySection, hemp]
  by_cases h : sa.salary_slips.isEmpty
  · rw [if_pos h, if_pos h]
  · rw [if_neg h, if_neg h]
    rw [show salaryRows ⟨sa.salary_slips.take 3⟩ = salaryRows sa from by
      simp [salaryRows, List.take_take]]

theorem generate_report_take3 (a : ApplicantData) (sa : SalaryAnalysis)
    (er : EligibilityResults) (obls : List Obligation) (pd : PendingDocs) (pf : PendingForms)
    (qs : List String) (now : String) :
    generate_report a ⟨sa.salary_slips.take 3⟩ er obls pd pf qs now =
      generate_report a sa er obls pd pf qs now := by
  rw [generate_report, generate_report]
  cases hd : docsSection
      (((PDF.init.add_page).set_font "I" 9).cell ("Generated on: " ++ now) false false) pd with
  | none => rfl
  | some p =>
      dsimp only
      rw [salarySection_take3 (applicantSection p a) sa]

theorem obligationsSection_update (p : PDF) (g : Obligation → Option Bool)
    (obls : List Obligation) (cs : EligCalcs) :
    obligationsSection p (obls.map fun o => { o with has_loan_document := g o }) cs =
      obligationsSection p obls cs := by
  have hemp : (obls.map fun o => { o with has_loan_document := g o }).isEmpty =
      obls.isEmpty := by
    rcases obls with _ | ⟨x, xs⟩ <;> rfl
  have hrow : (obls.map fun o => { o with has_loan_document := g o }).map oblRow =
      obls.map oblRow := by
    rw [List.map_map]
    rfl
  have htot : totalEMI (obls.map fun o => { o with has_loan_document := g o }) =
      totalEMI obls := by
    rw [totalEMI, totalEMI, List.foldl_map]
  rw [obligationsSection, obligationsSection, hemp]
  by_cases h : obls.isEmpty
  · rw [if_pos h, if_pos h]
  · rw [if_neg h, if_neg h, oblTableData, oblTableData, hrow, htot]

/-- An applicant record with every optional field absent. -/
def emptyApplicant : ApplicantData :=
  ⟨none, none, none, none, none, none, none, none, none, none, none, none, none, none, none,
    none⟩

/-- A salary analysis with no slips. -/
def emptySA : SalaryAnalysis := ⟨[]⟩

/-- An eligibility record with every optional field absent. -/
def emptyER : EligibilityResults := ⟨none, none, [], []⟩

/-- A pending-documents record with every optional field absent. -/
def emptyPD : PendingDocs := ⟨[], [], none⟩

/-- A pending-forms record with every optional field absent. -/
def emptyPF : PendingForms := ⟨[], none⟩

/-- An uploaded-document descriptor without a document_type key. -/
def badDoc : UploadedDoc := ⟨none, none, none, none, none⟩

/-- A pending-documents record whose only uploaded descriptor lacks a
document_type. -/
def badPD : PendingDocs := ⟨[badDoc], [], none⟩

set_option maxRecDepth 4000 in
/-- C1 counterexample: the claim fails on the code in two ways.  A
bundle whose uploaded-document descriptor has no document_type makes
generate_report raise KeyError at line 84 (modelled as the none
result), so not every accessor tolerates an absent key; and for the
all-absent bundle the missing numeric loan_amount renders as Rs0, not
as the N/A placeholder. -/
theorem c1_counterexample :
    generate_report emptyApplicant emptySA emptyER [] badPD emptyPF []
        "01 January 2026, 10:00 AM" = none ∧
    (⟨"Rs0", false, "", 10, ⟨0, 0, 0⟩, false⟩ : Cell) ∈
      cellsOf (generate_report emptyApplicant emptySA emptyER [] emptyPD emptyPF []
        "01 January 2026, 10:00 AM") := by
  constructor
  · rfl
  · decide

/-- C1, amended: when every uploaded-document descriptor carries a
document_type, generate_report succeeds for every bundle however many
other optional fields are absent, and an absent string-valued field
(here the applicant name) renders the fixed N/A placeholder; absent
numeric fields fall back to numeric defaults instead. -/
theorem c1_missing_fields (a : ApplicantData) (sa : SalaryAnalysis) (er : EligibilityResults)
    (obls : List Obligation) (pd : PendingDocs) (pf : PendingForms) (qs : List String)
    (now : String)
    (h : ∀ d ∈ pd.uploaded_documents_details, d.document_type.isSome = true) :
    (generate_report a sa er obls pd pf qs now).isSome = true ∧
    (a.applicant_name = none →
      (⟨"N/A", false, "", 10, ⟨0, 0, 0⟩, false⟩ : Cell) ∈
        cellsOf (generate_report a sa er obls pd pf qs now)) := by
  obtain ⟨P, hP, hc, _⟩ := generate_report_spec a sa er obls pd pf qs now h
  rw [hP]
  refine ⟨rfl, fun hn => ?_⟩
  show _ ∈ P.cells
  rw [hc]
  simp [reportCells, applicantCells, fieldCells, hn]

/-- C1 witness: the all-absent bundle (no uploaded descriptors at all)
renders successfully and shows the N/A placeholder. -/
theorem c1_witness :
    (generate_report emptyApplicant emptySA emptyER [] emptyPD emptyPF []
        "01 January 2026, 10:00 AM").isSome = true ∧
    (⟨"N/A", false, "", 10, ⟨0, 0, 0⟩, false⟩ : Cell) ∈
      cellsOf (generate_report emptyApplicant emptySA emptyER [] emptyPD emptyPF []
        "01 January 2026, 10:00 AM") := by
  have h := c1_missing_fields emptyApplicant emptySA emptyER [] emptyPD emptyPF []
    "01 January 2026, 10:00 AM" (by decide)
  exact ⟨h.1, h.2 rfl⟩

/-- C2: the synthetic total row appended to the obligations table shows
the two-decimal sum of exactly the non-excluded amounts, while every
excluded record keeps its own row with its own two-decimal amount and
the status Excluded. -/
theorem c2_obligations_total (obls : List Obligation) :
    oblTableData obls =
      obls.map oblRow ++ [["", "", "Rs" ++ fmtComma2 (sumNonExcluded obls), "TOTAL"]] ∧
    ∀ o ∈ obls, o.excluded.getD false = true →
      oblRow o ∈ obls.map oblRow ∧
      oblRow o = [o.lender.getD "Unknown", pyTitle (o.«type».getD "Unknown"),
        "Rs" ++ fmtComma2 (o.amount.getD 0), "Excluded"] := by
  refine ⟨by rw [oblTableData, totalEMI_eq], fun o ho hex => ⟨List.mem_map_of_mem _ ho, ?_⟩⟩
  simp [oblRow, hex]

/-- An active obligation of 1000. -/
def obA : Obligation := ⟨some "Bank A", some "car loan", some 1000, some false, some false⟩

/-- An excluded obligation of 2000. -/
def obB : Obligation := ⟨some "Bank B", some "personal loan", some 2000, some true, some false⟩

/-- An obligation of 3000 with no excluded flag (treated active). -/
def obC : Obligation := ⟨some "Bank C", some "home loan", some 3000, none, none⟩

/-- C2 witness: amounts 1000, 2000 (excluded) and 3000 give the total
row amount Rs4,000.00 while the excluded row still shows Rs2,000.00
with status Excluded. -/
theorem c2_witness :
    "Rs" ++ fmtComma2 (sumNonExcluded [obA, obB, obC]) = "Rs4,000.00" ∧
    oblRow obB = ["Bank B", "Personal Loan", "Rs2,000.00", "Excluded"] ∧
    oblRow obB ∈ [obA, obB, obC].map oblRow := by
  have h := (c2_obligations_total [obA, obB, obC]).2 obB (by decide) (by rfl)
  exact ⟨by decide, h.2.trans (by decide), h.1⟩

/-- C3: with more than three salary slips, exactly the first three (in
input order) form the data rows of the salary table, and the whole
rendered document is unchanged when the slip list is truncated to its
first three entries, so later slips never appear in the output. -/
theorem c3_first_three_slips (a : ApplicantData) (sa : SalaryAnalysis)
    (er : EligibilityResults) (obls : List Obligation) (pd : PendingDocs) (pf : PendingForms)
    (qs : List String) (now : String) (h : 3 < sa.salary_slips.length) :
    generate_report a ⟨sa.salary_slips.take 3⟩ er obls pd pf qs now =
      generate_report a sa er obls pd pf qs now ∧
    (salaryRows sa).length = 3 ∧
    ∀ i, i < 3 → (salaryRows sa)[i]? = (sa.salary_slips[i]?).map slipRow := by
  refine ⟨generate_report_take3 a sa er obls pd pf qs now, ?_, ?_⟩
  · rw [salaryRows]
    simp only [List.length_map, List.length_take]
    omega
  · intro i hi
    rw [salaryRows, List.getElem?_map, List.getElem?_take, if_pos hi]

/-- A minimal salary slip for a given month label. -/
def slipFor (m : String) : SalarySlip := ⟨some m, none, none, some 1000, some 900⟩

/-- Four salary slips in input order. -/
def fourSlips : SalaryAnalysis := ⟨[slipFor "Jan", slipFor "Feb", slipFor "Mar", slipFor "Apr"]⟩

/-- C3 witness: with four slips the render equals the render of the
first three, there are exactly three data rows, and row 1 comes from
slip 1. -/
theorem c3_witness :
    generate_report emptyApplicant ⟨fourSlips.salary_slips.take 3⟩ emptyER [] emptyPD emptyPF []
        "t" = generate_report emptyApplicant fourSlips emptyER [] emptyPD emptyPF [] "t" ∧
    (salaryRows fourSlips).length = 3 ∧
    (salaryRows fourSlips)[1]? = (fourSlips.salary_slips[1]?).map slipRow := by
  have h := c3_first_three_slips emptyApplicant fourSlips emptyER [] emptyPD emptyPF [] "t"
    (by decide)
  exact ⟨h.1, h.2.1, h.2.2 1 (by decide)⟩

/-- C4: in the not-eligible branch the verdict block appends the red
marker and then the recommended-amount line exactly when the
recommended amount is strictly positive; a zero or absent amount
suppresses the line. -/
theorem c4_recommended_amount_line (p : PDF) (er : EligibilityResults)
    (h : er.eligible.getD false = false) :
    (verdictBlock p er).cells = p.cells ++
      (⟨"NOT ELIGIBLE AS PER CURRENT NORMS", false, "B", 12, ⟨255, 0, 0⟩, false⟩ ::
       (if 0 < (calcOf er).recommended_loan_amount.getD 0 then
          [⟨"Recommended Amount: Rs" ++ fmtComma0 ((calcOf er).recommended_loan_amount.getD 0),
             false, "B", 11, ⟨255, 0, 0⟩, false⟩]
        else [])) := by
  rw [verdictBlock_spec, verdictCells, if_neg (by simp [h])]

/-- A not-eligible result with a recommended amount of 10000. -/
def erNotElig : EligibilityResults :=
  ⟨some false, some { EligCalcs.empty with recommended_loan_amount := some 10000 }, [], []⟩

/-- A not-eligible result with no recommended amount. -/
def erNoRec : EligibilityResults := ⟨none, none, [], []⟩

/-- C4 witness: recommended 10000 produces the line; an absent
recommended amount suppresses it. -/
theorem c4_witness :
    (verdictBlock PDF.init erNotElig).cells =
      [⟨"NOT ELIGIBLE AS PER CURRENT NORMS", false, "B", 12, ⟨255, 0, 0⟩, false⟩,
       ⟨"Recommended Amount: Rs10,000", false, "B", 11, ⟨255, 0, 0⟩, false⟩] ∧
    (verdictBlock PDF.init erNoRec).cells =
      [⟨"NOT ELIGIBLE AS PER CURRENT NORMS", false, "B", 12, ⟨255, 0, 0⟩, false⟩] := by
  have h1 := c4_recommended_amount_line PDF.init erNotElig rfl
  have h2 := c4_recommended_amount_line PDF.init erNoRec rfl
  exact ⟨h1.trans (by decide), h2.trans (by decide)⟩

/-- C5: in the eligible branch the verdict block appends exactly the
green bold eligible marker and the approved-amount line (thousands
separators, no decimals), and neither cell contains the not-eligible
text. -/
theorem c5_eligible_block (p : PDF) (er : EligibilityResults)
    (h : er.eligible.getD false = true) :
    (verdictBlock p er).cells = p.cells ++
      [⟨"ELIGIBLE FOR LOAN", false, "B", 12, ⟨0, 128, 0⟩, false⟩,
       ⟨"Approved Amount: Rs" ++ fmtComma0 ((calcOf er).approved_loan_amount.getD 0), false,
         "B", 11, ⟨0, 128, 0⟩, false⟩] ∧
    ∀ c ∈ ([⟨"ELIGIBLE FOR LOAN", false, "B", 12, ⟨0, 128, 0⟩, false⟩,
       ⟨"Approved Amount: Rs" ++ fmtComma0 ((calcOf er).approved_loan_amount.getD 0), false,
         "B", 11, ⟨0, 128, 0⟩, false⟩] : List Cell),
      ¬ ("NOT ELIGIBLE".data <:+: c.text.data) := by
  refine ⟨by rw [verdictBlock_spec, verdictCells, if_pos h], ?_⟩
  intro c hc hinf
  have hT : 'T' ∈ c.text.data := hinf.subset (by decide)
  rcases List.mem_cons.mp hc with rfl | hc
  · revert hT; decide
  rcases List.mem_cons.mp hc with rfl | hc
  · rw [show (⟨"Approved Amount: Rs" ++ fmtComma0 ((calcOf er).approved_loan_amount.getD 0),
        false, "B", 11, ⟨0, 128, 0⟩, false⟩ : Cell).text =
        "Approved Amount: Rs" ++ fmtComma0 ((calcOf er).approved_loan_amount.getD 0) from rfl,
      String.data_append] at hT
    rcases List.mem_append.mp hT with hm | hm
    · revert hm; decide
    · exact absurd (fmtComma0_chars _ 'T' hm) (by decide)
  · simp at hc

/-- An eligible result with an approved amount of 500000. -/
def erElig : EligibilityResults :=
  ⟨some true, some { EligCalcs.empty with approved_loan_amount := some 500000 }, [], []⟩

/-- C5 witness: approved 500000 renders as Rs500,000 next to the green
bold marker, with no not-eligible text in the block. -/
theorem c5_witness :
    (verdictBlock PDF.init erElig).cells =
      [⟨"ELIGIBLE FOR LOAN", false, "B", 12, ⟨0, 128, 0⟩, false⟩,
       ⟨"Approved Amount: Rs500,000", false, "B", 11, ⟨0, 128, 0⟩, false⟩] ∧
    ¬ ("NOT ELIGIBLE".data <:+: "Approved Amount: Rs500,000".data) := by
  have h := c5_eligible_block PDF.init erElig rfl
  refine ⟨h.1.trans (by decide), ?_⟩
  have h2 := h.2 ⟨"Approved Amount: Rs" ++ fmtComma0 ((calcOf erElig).approved_loan_amount.getD 0),
    false, "B", 11, ⟨0, 128, 0⟩, false⟩ (by simp)
  have he : ("Approved Amount: Rs" ++ fmtComma0 ((calcOf erElig).approved_loan_amount.getD 0)) =
      "Approved Amount: Rs500,000" := by decide
  rw [he] at h2
  exact h2

/-- C6: with an empty (or absent) slip list the salary section appends
exactly the banner and the italic unavailable placeholder, and every
cell the section adds is borderless, so no table is emitted. -/
theorem c6_salary_placeholder (p : PDF) (sa : SalaryAnalysis) (h : sa.salary_slips = []) :
    (salarySection p sa).cells = p.cells ++
      [bannerCell "2. COMPLETE SALARY BREAKUP (Last 3 Months)",
       ⟨"Salary details unavailable", false, "I", 9, ⟨0, 0, 0⟩, false⟩] ∧
    ∀ c ∈ (salarySection p sa).cells, c ∈ p.cells ∨ c.border = false := by
  have hemp : sa.salary_slips.isEmpty = true := by simp [h]
  have h1 := (salarySection_spec p sa).1
  rw [salaryCells, if_pos hemp] at h1
  refine ⟨h1, fun c hc => ?_⟩
  rw [h1] at hc
  rcases List.mem_append.mp hc with hm | hm
  · exact Or.inl hm
  · right
    rcases List.mem_cons.mp hm with rfl | hm
    · rfl
    rcases List.mem_cons.mp hm with rfl | hm
    · rfl
    · simp at hm

/-- C6 witness: on a fresh document with zero slips, only the banner
and the placeholder appear and nothing has a border. -/
theorem c6_witness :
    (salarySection PDF.init ⟨[]⟩).cells =
      [bannerCell "2. COMPLETE SALARY BREAKUP (Last 3 Months)",
       ⟨"Salary details unavailable", false, "I", 9, ⟨0, 0, 0⟩, false⟩] ∧
    ∀ c ∈ (salarySection PDF.init ⟨[]⟩).cells, c ∈ PDF.init.cells ∨ c.border = false := by
  have h := c6_salary_placeholder PDF.init ⟨[]⟩ rfl
  exact ⟨by simpa using h.1, h.2⟩

/-- C7: for every input bundle, every emitted cell is either black (the
default color), textless, or one of the designated colored emissions
(section banners, document warnings, verdict block, Issues and
Warnings labels, green confirmations, gray disclaimer); colored state
never leaks into other content. -/
theorem c7_color_discipline (a : ApplicantData) (sa : SalaryAnalysis)
    (er : EligibilityResults) (obls : List Obligation) (pd : PendingDocs) (pf : PendingForms)
    (qs : List String) (now : String) :
    (cellsOf (generate_report a sa er obls pd pf qs now)).all goodCell = true := by
  by_cases h : ∀ d ∈ pd.uploaded_documents_details, d.document_type.isSome = true
  · obtain ⟨P, hP, hc, _⟩ := generate_report_spec a sa er obls pd pf qs now h
    rw [hP]
    show P.cells.all goodCell = true
    rw [hc]
    exact good_reportCells a sa er obls pd pf qs now
  · push_neg at h
    rcases h with ⟨d, hd, hne⟩
    have hnone : d.document_type = none := by
      cases hdt : d.document_type
      · rfl
      · exact absurd (by rw [hdt]; rfl) hne
    rw [generate_report_none a sa er obls pd pf qs now ⟨d, hd, hnone⟩]
    rfl

/-- C8: the render is a pure function of the input bundle and the
injected timestamp (the wall clock of line 76 is the only non-input
dependence), so two calls with the same bundle and the same timestamp
produce identical documents. -/
theorem c8_deterministic (a : ApplicantData) (sa : SalaryAnalysis) (er : EligibilityResults)
    (obls : List Obligation) (pd : PendingDocs) (pf : PendingForms) (qs : List String)
    (t1 t2 : String) (h : t1 = t2) :
    generate_report a sa er obls pd pf qs t1 = generate_report a sa er obls pd pf qs t2 := by
  rw [h]

/-- C8 witness: the same bundle with the same timestamp twice. -/
theorem c8_witness :
    generate_report emptyApplicant emptySA emptyER [] emptyPD emptyPF []
        "02 March 2026, 01:00 PM" =
      generate_report emptyApplicant emptySA emptyER [] emptyPD emptyPF []
        "02 March 2026, 01:00 PM" :=
  c8_deterministic emptyApplicant emptySA emptyER [] emptyPD emptyPF []
    "02 March 2026, 01:00 PM" "02 March 2026, 01:00 PM" rfl

/-- The renderer with the seven input records threaded through and
returned: every assignment in the source body writes only the local
pdf object or local lists (data, total_emi), never into an input
record, so the translation returns the records exactly as received. -/
def generate_report_frame (a : ApplicantData) (sa : SalaryAnalysis) (er : EligibilityResults)
    (obls : List Obligation) (pd : PendingDocs) (pf : PendingForms) (qs : List String)
    (now : String) :
    Option PDF ×
      (ApplicantData × SalaryAnalysis × EligibilityResults × List Obligation × PendingDocs ×
        PendingForms × List String) :=
  (generate_report a sa er obls pd pf qs now, a, sa, er, obls, pd, pf, qs)

/-- C9: generate_report leaves all seven input records unchanged: the
state threaded through the render comes back equal to the input. -/
theorem c9_no_mutation (a : ApplicantData) (sa : SalaryAnalysis) (er : EligibilityResults)
    (obls : List Obligation) (pd : PendingDocs) (pf : PendingForms) (qs : List String)
    (now : String) :
    (generate_report_frame a sa er obls pd pf qs now).2 = (a, sa, er, obls, pd, pf, qs) := rfl

/-- C10: the rendered document does not depend on the
has_loan_document flag of any obligation: replacing every flag by an
arbitrary value produces the identical document. -/
theorem c10_has_loan_document_independent (g : Obligation → Option Bool) (a : ApplicantData)
    (sa : SalaryAnalysis) (er : EligibilityResults) (obls : List Obligation) (pd : PendingDocs)
    (pf : PendingForms) (qs : List String) (now : String) :
    generate_report a sa er (obls.map fun o => { o with has_loan_document := g o }) pd pf qs
        now = generate_report a sa er obls pd pf qs now := by
  rw [generate_report, generate_report]
  cases hd : docsSection
      (((PDF.init.add_page).set_font "I" 9).cell ("Generated on: " ++ now) false false) pd with
  | none => rfl
  | some p =>
      dsimp only
      rw [obligationsSection_update (eligSection (salarySection (applicantSection p a) sa) a er)
        g obls (calcOf er)]
